import Mathlib

/-!
Verification of the diamond-proxy auto-upgrade tool (scripts/auto_upgrade.py).

The script reconciles the function-dispatch table of a diamond proxy
against a newly compiled facet: it loads function records from a build
artifact (get_facet_functions), computes Add/Replace/Remove action sets by
set algebra against the registry's current selector set
(determine_upgrade_actions), scans all facet sources for duplicate
selectors (check_facet_source_conflicts), and executes the resulting
upgrade scripts in a fixed order (execute_upgrades).

Modelling choices:
- 4-byte selectors are modelled as natural numbers (their identifier
  value); the Python code stores them as canonical fixed-width hex
  strings, on which lexicographic sorting coincides with numeric sorting.
- Python sets become `Finset Nat`; `sorted(list(s))` becomes
  `Finset.sort (fun a b => a ≤ b) s`.
- The external `cast sig` selector oracle is an abstract parameter
  `deriveFn : String → Nat` (deterministic, as the spec requires).
- Registry reads and artifact existence are inputs of an explicit
  environment; the pipeline returns the trace of registry queries it
  issued, so that "no registry call occurs" is a statement about the
  trace.
-/

/-- Mirrors the Python dataclass FunctionInfo: a function with its name,
canonical signature string and 4-byte selector. -/
structure FunctionInfo where
  name : String
  signature : String
  selector : Nat
deriving DecidableEq, Repr

/-- Mirrors the Python dataclass UpgradeAction: an action kind
("Add", "Replace" or "Remove"), a selectors list and a signatures list. -/
structure UpgradeAction where
  action : String
  selectors : List Nat
  signatures : List String
deriving DecidableEq, Repr

/-- One entry of an ABI "inputs" list: a parameter with its type string
and its (discarded) parameter name. -/
structure AbiParam where
  type : String
  name : String
deriving DecidableEq, Repr

/-- One entry of a build artifact's "abi" list: an entry type
("function", "constructor", "event", ...), a name, and the inputs list. -/
structure AbiItem where
  type : String
  name : String
  inputs : List AbiParam
deriving DecidableEq, Repr

/-- The canonical signature the loader builds for one ABI entry:
`name(type1,type2,...)`, joining the input TYPE strings with commas and
discarding parameter names (auto_upgrade.py lines 109-110). -/
def abiSignature (item : AbiItem) : String :=
  item.name ++ "(" ++ String.intercalate "," (item.inputs.map AbiParam.type) ++ ")"

/-- Mirrors the ABI-processing loop of DiamondUpgrader.get_facet_functions
(auto_upgrade.py lines 105-125): walk the artifact's abi list in order,
and for every entry of type "function" append a FunctionInfo built from
the canonical signature and the selector the external `cast sig` oracle
(`deriveFn`) returns for it; every other entry contributes nothing. -/
def facetStep (deriveFn : String → Nat) (functions : List FunctionInfo) (item : AbiItem) :
    List FunctionInfo :=
  if item.type = "function" then
    functions ++ [{ name := item.name, signature := abiSignature item,
                    selector := deriveFn (abiSignature item) }]
  else functions

def get_facet_functions (deriveFn : String → Nat) (abi : List AbiItem) : List FunctionInfo :=
  abi.foldl (facetStep deriveFn) []

/-- An ABI entry with every parameter name replaced by the empty string;
used to state that get_facet_functions discards parameter names. -/
def stripParamNames (item : AbiItem) : AbiItem :=
  { type := item.type, name := item.name,
    inputs := item.inputs.map (fun p => { type := p.type, name := "" }) }

/-- Mirrors DiamondUpgrader.determine_upgrade_actions (auto_upgrade.py
lines 202-256) with the registry read `get_diamond_selectors()` supplied
as the `diamond_selectors` argument: build the set of new selectors,
compute `to_add = new − diamond`, `to_replace = new ∩ diamond`,
`to_remove = diamond − new`, and package each as an UpgradeAction whose
selectors are the sorted set and whose signatures filter the original
record list by membership (Remove carries no signatures). -/
def determine_upgrade_actions (new_functions : List FunctionInfo)
    (diamond_selectors : Finset Nat) : UpgradeAction × UpgradeAction × UpgradeAction :=
  let new_selectors : Finset Nat := (new_functions.map FunctionInfo.selector).toFinset
  let to_add : Finset Nat := new_selectors \ diamond_selectors
  let to_replace : Finset Nat := new_selectors ∩ diamond_selectors
  let to_remove : Finset Nat := diamond_selectors \ new_selectors
  ({ action := "Add",
     selectors := to_add.sort (fun a b => a ≤ b),
     signatures := (new_functions.filter (fun f => f.selector ∈ to_add)).map
       FunctionInfo.signature },
   { action := "Replace",
     selectors := to_replace.sort (fun a b => a ≤ b),
     signatures := (new_functions.filter (fun f => f.selector ∈ to_replace)).map
       FunctionInfo.signature },
   { action := "Remove",
     selectors := to_remove.sort (fun a b => a ≤ b),
     signatures := [] })

/-- A facet module as the conflict scanner sees it: the facet name
(derived from the file name) together with the function records its
compiled artifact yields. -/
structure FacetModule where
  name : String
  records : List FunctionInfo
deriving DecidableEq, Repr

/-- One step of the dictionary update inside
check_facet_source_conflicts (auto_upgrade.py lines 547-550): append
`(facet_name, signature)` to the list stored under the record's
selector key. -/
def insertClaim (mname : String) (d : Nat → List (String × String)) (f : FunctionInfo) :
    Nat → List (String × String) :=
  fun s => if s = f.selector then d s ++ [(mname, f.signature)] else d s

/-- The selector → [(facet_name, signature)] dictionary that
check_facet_source_conflicts (auto_upgrade.py lines 519-550) builds by
iterating over all facet modules in order and over each module's function
records in order, appending every (module, signature) pair under its
selector key. -/
def scanDict (modules : List FacetModule) : Nat → List (String × String) :=
  modules.foldl (fun d m => m.records.foldl (insertClaim m.name) d) (fun _ => [])

/-- The conflict report of check_facet_source_conflicts (auto_upgrade.py
line 553): the selectors whose claim list has length above one, each
mapped to its full claim list; selectors with at most one claim are
absent. -/
def check_facet_source_conflicts (modules : List FacetModule) :
    Nat → Option (List (String × String)) :=
  fun sel =>
    let l := scanDict modules sel
    if 1 < l.length then some l else none

/-- Declarative form of the multimap: all (module, signature) pairs, over
all modules in scan order, whose record claims the given selector. -/
def claimsOf (modules : List FacetModule) (sel : Nat) : List (String × String) :=
  modules.flatMap
    (fun m => (m.records.filter (fun f => f.selector = sel)).map
      (fun f => (m.name, f.signature)))

/-- Mirrors the scripts_to_run list of DiamondUpgrader.execute_upgrades
(auto_upgrade.py lines 597-618): a (kind, script path) entry per action
whose selectors list is non-empty, pushed in the fixed order Replace,
Add, Remove; both the dry-run printing branch and the auto-execute
branch iterate exactly this list in order, and when it is empty nothing
is printed or run. -/
def execute_upgrades (add_action replace_action remove_action : UpgradeAction) :
    List (String × String) :=
  (if replace_action.selectors = [] then []
   else [("Replace", "script/ReplaceFacet.s.sol:ReplaceFacetScript")]) ++
  (if add_action.selectors = [] then []
   else [("Add", "script/AddFacet.s.sol:AddFacetScript")]) ++
  (if remove_action.selectors = [] then []
   else [("Remove", "script/RemoveFacet.s.sol:RemoveFacetScript")])

/-- Python truthiness of an optional string: an absent value and the
empty string are both falsy. -/
def truthyOpt : Option String → Bool
  | none => false
  | some s => !s.isEmpty

/-- Mirrors DiamondUpgrader._get_rpc_url (auto_upgrade.py lines 60-67):
well-known network names map to default endpoints (overridable by
environment), anything else is treated as a literal custom RPC URL. -/
def get_rpc_url (envSepolia envMainnet : Option String) (network : String) : String :=
  if network = "localhost" then "http://localhost:8545"
  else if network = "sepolia" then envSepolia.getD "https://ethereum-sepolia.publicnode.com"
  else if network = "mainnet" then envMainnet.getD "https://eth.llamarpc.com"
  else network

/-- The constructed upgrader state (the fields DiamondUpgrader.__init__
assigns). -/
structure DiamondUpgrader where
  facet_name : String
  diamond_address : String
  network : String
  private_key : Option String
  rpc_url : String
deriving DecidableEq, Repr

/-- Mirrors DiamondUpgrader.__init__ (auto_upgrade.py lines 50-58):
resolve the private key as `private_key or os.getenv("PRIVATE_KEY")`
under Python truthiness, compute the RPC URL, and raise
ValueError("PRIVATE_KEY not set. Set it in .env or pass it as argument")
when the resolved key is falsy. -/
def DiamondUpgrader.init (facet_name diamond_address network : String)
    (private_key envPrivateKey envSepolia envMainnet : Option String) :
    Except String DiamondUpgrader :=
  let pk := if truthyOpt private_key then private_key else envPrivateKey
  let rpc := get_rpc_url envSepolia envMainnet network
  if truthyOpt pk then
    Except.ok { facet_name := facet_name, diamond_address := diamond_address,
                network := network, private_key := pk, rpc_url := rpc }
  else
    Except.error "PRIVATE_KEY not set. Set it in .env or pass it as argument"

/-- Mirrors the --check-conflicts branch of main (auto_upgrade.py lines
668-681): construct a DiamondUpgrader (facet name "ConflictChecker",
zero diamond address) before any scanning, propagating its
configuration error; only on success run check_facet_source_conflicts. -/
def run_check_conflicts (network : String)
    (private_key envPrivateKey envSepolia envMainnet : Option String)
    (modules : List FacetModule) : Except String (Nat → Option (List (String × String))) :=
  match DiamondUpgrader.init "ConflictChecker" "0x0000000000000000000000000000000000000000"
      network private_key envPrivateKey envSepolia envMainnet with
  | Except.error e => Except.error e
  | Except.ok _ => Except.ok (check_facet_source_conflicts modules)

/-- Environment for one reconciliation run: the facet's name, whether its
compiled artifact exists, the artifact's abi when it does, the selector
oracle, the facet addresses the registry enumerates and the registry's
full selector set. -/
structure PipelineEnv where
  facet_name : String
  artifactExists : Bool
  abi : List AbiItem
  deriveFn : String → Nat
  facetAddresses : List String
  registrySelectors : Finset Nat

/-- The registry read trace of one successful get_diamond_selectors()
call (auto_upgrade.py lines 140-172): one facetAddresses() query
followed by one facetFunctionSelectors(address) query per enumerated
facet. -/
def registryQueries (env : PipelineEnv) : List String :=
  "cast call facetAddresses()" ::
    env.facetAddresses.map (fun a => "cast call facetFunctionSelectors(" ++ a ++ ")")

/-- Mirrors the reconciliation pipeline of main (auto_upgrade.py lines
697-701): get_facet_functions first — which raises
FileNotFoundError("Compiled artifact not found: ...") when the artifact
is absent (lines 95-98), before the pipeline reaches
determine_upgrade_actions — then determine_upgrade_actions, whose
get_diamond_selectors() call issues the registry queries. The second
component is the trace of registry queries the run issued. -/
def run_pipeline (env : PipelineEnv) :
    Except String (UpgradeAction × UpgradeAction × UpgradeAction) × List String :=
  if env.artifactExists then
    let new_functions := get_facet_functions env.deriveFn env.abi
    (Except.ok (determine_upgrade_actions new_functions env.registrySelectors),
     registryQueries env)
  else
    (Except.error ("Compiled artifact not found: out/" ++ env.facet_name ++ ".sol/" ++
       env.facet_name ++ ".json. Run 'forge build' first."), [])

/-! ## Sample inputs -/

/-- A concrete two-record facet interface with distinct selectors, used
as a sample input. -/
def sampleRecords : List FunctionInfo :=
  [{ name := "f", signature := "f()", selector := 1 },
   { name := "g", signature := "g(uint256)", selector := 2 }]

/-- A concrete facet module claiming selector 5, used as a sample
input. -/
def sampleModuleA : FacetModule :=
  { name := "A", records := [{ name := "foo", signature := "foo()", selector := 5 }] }

/-- A second concrete facet module claiming the same selector 5 with the
same signature, used as a sample input. -/
def sampleModuleB : FacetModule :=
  { name := "B", records := [{ name := "foo", signature := "foo()", selector := 5 }] }

/-! ## Helper lemmas -/

/-- A sorted, duplicate-free list whose elements are exactly a finset is
that finset's sort. -/
lemma Finset.sort_eq_of_sorted_nodup (s : Finset Nat) (l : List Nat) (hn : l.Nodup)
    (hs : List.Sorted (fun a b => a ≤ b) l) (ht : l.toFinset = s) :
    s.sort (fun a b => a ≤ b) = l := by
  refine List.eq_of_perm_of_sorted ?_ (Finset.sort_sorted _ _) hs
  refine List.perm_of_nodup_nodup_toFinset_eq (Finset.sort_nodup _ _) hn ?_
  rw [Finset.sort_toFinset, ht]

/-- Counting the records of a duplicate-free record list whose selector
lies in a finset. -/
lemma length_filter_mem_eq_card (l : List FunctionInfo) (S : Finset Nat)
    (h : (l.map FunctionInfo.selector).Nodup) :
    (l.filter (fun f => f.selector ∈ S)).length
      = ((l.map FunctionInfo.selector).toFinset ∩ S).card := by
  induction l with
  | nil => simp
  | cons f t ih =>
    rw [List.map_cons, List.nodup_cons] at h
    obtain ⟨hf, ht⟩ := h
    by_cases hmem : f.selector ∈ S
    · rw [List.filter_cons_of_pos (by simpa using hmem), List.length_cons, ih ht,
        List.map_cons, List.toFinset_cons, Finset.insert_inter_of_mem hmem,
        Finset.card_insert_of_not_mem (fun hc => hf (List.mem_toFinset.mp (Finset.mem_of_mem_inter_left hc)))]
    · rw [List.filter_cons_of_neg (by simpa using hmem), ih ht,
        List.map_cons, List.toFinset_cons, Finset.insert_inter_of_not_mem hmem]

lemma map_type_strip (inputs : List AbiParam) :
    (inputs.map (fun p => ({ type := p.type, name := "" } : AbiParam))).map AbiParam.type
      = inputs.map AbiParam.type := by
  rw [List.map_map]
  exact List.map_congr_left fun p _ => rfl

lemma abiSignature_stripParamNames (item : AbiItem) :
    abiSignature (stripParamNames item) = abiSignature item := by
  simp only [abiSignature, stripParamNames, map_type_strip]

lemma foldl_facetStep (deriveFn : String → Nat) (abi : List AbiItem) (acc : List FunctionInfo) :
    abi.foldl (facetStep deriveFn) acc
      = acc ++ (abi.filter (fun item => item.type = "function")).map
          (fun item => { name := item.name, signature := abiSignature item,
                         selector := deriveFn (abiSignature item) }) := by
  induction abi generalizing acc with
  | nil => simp
  | cons item t ih =>
    rw [List.foldl_cons, ih]
    by_cases htype : item.type = "function"
    · rw [List.filter_cons_of_pos (by simpa using htype)]
      simp [facetStep, htype, List.append_assoc]
    · rw [List.filter_cons_of_neg (by simpa using htype)]
      simp [facetStep, htype]

lemma foldl_insertClaim (mname : String) (records : List FunctionInfo)
    (d : Nat → List (String × String)) (sel : Nat) :
    (records.foldl (insertClaim mname) d) sel
      = d sel ++ (records.filter (fun f => f.selector = sel)).map
          (fun f => (mname, f.signature)) := by
  induction records generalizing d with
  | nil => simp
  | cons f t ih =>
    rw [List.foldl_cons, ih]
    by_cases hsel : f.selector = sel
    · rw [List.filter_cons_of_pos (by simpa using hsel)]
      simp only [insertClaim]
      rw [if_pos hsel.symm]
      simp [List.append_assoc]
    · rw [List.filter_cons_of_neg (by simpa using hsel)]
      simp only [insertClaim]
      rw [if_neg (Ne.symm hsel)]

lemma scanDict_eq_claimsOf (modules : List FacetModule) (sel : Nat) :
    scanDict modules sel = claimsOf modules sel := by
  suffices h : ∀ d : Nat → List (String × String),
      (modules.foldl (fun d m => m.records.foldl (insertClaim m.name) d) d) sel
        = d sel ++ claimsOf modules sel by
    simpa [scanDict] using h (fun _ => [])
  induction modules with
  | nil => intro d; simp [claimsOf]
  | cons m t ih =>
    intro d
    rw [List.foldl_cons, ih, foldl_insertClaim]
    simp [claimsOf, List.append_assoc]

lemma claimsOf_length (modules : List FacetModule) (sel : Nat) :
    (claimsOf modules sel).length
      = (modules.flatMap FacetModule.records).countP (fun f => f.selector = sel) := by
  induction modules with
  | nil => simp [claimsOf]
  | cons m t ih =>
    simp only [claimsOf, List.flatMap_cons, List.length_append, List.length_map,
      List.countP_append] at ih ⊢
    rw [ih, List.countP_eq_length_filter, List.countP_eq_length_filter]

/-- C1: determine_upgrade_actions classifies identifiers by exact set
algebra: the Add selectors are new_ids minus the registry identifiers,
the Replace selectors are the intersection of new_ids and the registry
identifiers, and the Remove selectors are the registry identifiers minus
new_ids, where new_ids is the set of selectors of the new records. -/
theorem determine_upgrade_actions_set_algebra (new_functions : List FunctionInfo)
    (registry_identifiers : Finset Nat) :
    ((determine_upgrade_actions new_functions registry_identifiers).1.selectors.toFinset
        = (new_functions.map FunctionInfo.selector).toFinset \ registry_identifiers)
    ∧ ((determine_upgrade_actions new_functions registry_identifiers).2.1.selectors.toFinset
        = (new_functions.map FunctionInfo.selector).toFinset ∩ registry_identifiers)
    ∧ ((determine_upgrade_actions new_functions registry_identifiers).2.2.selectors.toFinset
        = registry_identifiers \ (new_functions.map FunctionInfo.selector).toFinset) := by
  refine ⟨?_, ?_, ?_⟩ <;> simp [determine_upgrade_actions, Finset.sort_toFinset]

/-- C2: the three action sets determine_upgrade_actions returns are
pairwise disjoint on identifiers, and the union of their identifiers is
new_ids ∪ registry_identifiers. -/
theorem determine_upgrade_actions_partition (new_functions : List FunctionInfo)
    (registry_identifiers : Finset Nat) :
    (Disjoint (determine_upgrade_actions new_functions registry_identifiers).1.selectors.toFinset
        (determine_upgrade_actions new_functions registry_identifiers).2.1.selectors.toFinset
    ∧ Disjoint (determine_upgrade_actions new_functions registry_identifiers).1.selectors.toFinset
        (determine_upgrade_actions new_functions registry_identifiers).2.2.selectors.toFinset
    ∧ Disjoint (determine_upgrade_actions new_functions registry_identifiers).2.1.selectors.toFinset
        (determine_upgrade_actions new_functions registry_identifiers).2.2.selectors.toFinset)
    ∧ ((determine_upgrade_actions new_functions registry_identifiers).1.selectors.toFinset
        ∪ (determine_upgrade_actions new_functions registry_identifiers).2.1.selectors.toFinset
        ∪ (determine_upgrade_actions new_functions registry_identifiers).2.2.selectors.toFinset
        = (new_functions.map FunctionInfo.selector).toFinset ∪ registry_identifiers) := by
  simp only [determine_upgrade_actions, Finset.sort_toFinset]
  refine ⟨⟨?_, ?_, ?_⟩, ?_⟩
  · rw [Finset.disjoint_left]
    intro a ha hb
    rw [Finset.mem_sdiff] at ha
    rw [Finset.mem_inter] at hb
    exact ha.2 hb.2
  · rw [Finset.disjoint_left]
    intro a ha hb
    rw [Finset.mem_sdiff] at ha
    rw [Finset.mem_sdiff] at hb
    exact hb.2 ha.1
  · rw [Finset.disjoint_left]
    intro a ha hb
    rw [Finset.mem_inter] at ha
    rw [Finset.mem_sdiff] at hb
    exact hb.2 ha.1
  · ext a
    simp only [Finset.mem_union, Finset.mem_sdiff, Finset.mem_inter]
    tauto

/-- C3: reconciliation is idempotent: re-running
determine_upgrade_actions with the same records against a registry set
equal to new_ids (the effect of applying the first run's actions) yields
an empty Add set, an empty Remove set, and a Replace set equal to
new_ids. -/
theorem determine_upgrade_actions_idempotent (new_functions : List FunctionInfo) :
    ((determine_upgrade_actions new_functions
        ((new_functions.map FunctionInfo.selector).toFinset)).1.selectors = [])
    ∧ ((determine_upgrade_actions new_functions
        ((new_functions.map FunctionInfo.selector).toFinset)).2.2.selectors = [])
    ∧ ((determine_upgrade_actions new_functions
        ((new_functions.map FunctionInfo.selector).toFinset)).2.1.selectors.toFinset
        = (new_functions.map FunctionInfo.selector).toFinset) := by
  refine ⟨?_, ?_, ?_⟩ <;>
    simp [determine_upgrade_actions, Finset.sdiff_self, Finset.sort_empty,
      Finset.inter_self, Finset.sort_toFinset]

/-- C5: every action's selectors list is sorted ascending by identifier
value and free of duplicates, and Remove never carries signatures; in
particular, for empty new records against registry set
0xAAAAAAAA, 0xBBBBBBBB the Remove selectors are exactly
[0xAAAAAAAA, 0xBBBBBBBB] in ascending order and Add and Replace are
empty. -/
theorem determine_upgrade_actions_sorted_dedup_outputs (new_functions : List FunctionInfo) (registry_identifiers : Finset Nat) :
    (List.Sorted (fun a b => a ≤ b)
        (determine_upgrade_actions new_functions registry_identifiers).1.selectors
      ∧ (determine_upgrade_actions new_functions registry_identifiers).1.selectors.Nodup)
    ∧ (List.Sorted (fun a b => a ≤ b)
        (determine_upgrade_actions new_functions registry_identifiers).2.1.selectors
      ∧ (determine_upgrade_actions new_functions registry_identifiers).2.1.selectors.Nodup)
    ∧ (List.Sorted (fun a b => a ≤ b)
        (determine_upgrade_actions new_functions registry_identifiers).2.2.selectors
      ∧ (determine_upgrade_actions new_functions registry_identifiers).2.2.selectors.Nodup)
    ∧ (determine_upgrade_actions new_functions registry_identifiers).2.2.signatures = []
    ∧ (determine_upgrade_actions [] ({2863311530, 3149642683} : Finset Nat)).2.2.selectors
        = [2863311530, 3149642683]
    ∧ (determine_upgrade_actions [] ({2863311530, 3149642683} : Finset Nat)).1.selectors = []
    ∧ (determine_upgrade_actions [] ({2863311530, 3149642683} : Finset Nat)).1.signatures = []
    ∧ (determine_upgrade_actions [] ({2863311530, 3149642683} : Finset Nat)).2.1.selectors = []
    ∧ (determine_upgrade_actions [] ({2863311530, 3149642683} : Finset Nat)).2.1.signatures
        = [] := by
  simp only [determine_upgrade_actions]
  refine ⟨⟨Finset.sort_sorted _ _, Finset.sort_nodup _ _⟩,
    ⟨Finset.sort_sorted _ _, Finset.sort_nodup _ _⟩,
    ⟨Finset.sort_sorted _ _, Finset.sort_nodup _ _⟩, trivial, ?_, ?_, rfl, ?_, rfl⟩
  · exact Finset.sort_eq_of_sorted_nodup _ [2863311530, 3149642683]
      (by decide) (by decide) (by decide)
  · exact Finset.sort_eq_of_sorted_nodup _ [] (by decide) (by decide) (by decide)
  · exact Finset.sort_eq_of_sorted_nodup _ [] (by decide) (by decide) (by decide)

/-- C4 (amended): provided the new records carry pairwise-distinct
selectors, the Add and Replace signatures equal the signatures of the
new records whose selector belongs to that action's identifier set, in
the loader's original record order, and each action's selectors list has
the same length as its signatures list. The distinctness hypothesis is
forced by the counterexample: with duplicate selectors among the new
records, the selector set deduplicates while the signature filter keeps
every record, so the lengths diverge. -/
theorem determine_upgrade_actions_signature_alignment (new_functions : List FunctionInfo) (registry_identifiers : Finset Nat)
    (h : (new_functions.map FunctionInfo.selector).Nodup) :
    ((determine_upgrade_actions new_functions registry_identifiers).1.signatures
      = (new_functions.filter (fun f => f.selector ∈
          (determine_upgrade_actions new_functions
            registry_identifiers).1.selectors.toFinset)).map FunctionInfo.signature)
    ∧ ((determine_upgrade_actions new_functions registry_identifiers).1.selectors.length
      = (determine_upgrade_actions new_functions registry_identifiers).1.signatures.length)
    ∧ ((determine_upgrade_actions new_functions registry_identifiers).2.1.signatures
      = (new_functions.filter (fun f => f.selector ∈
          (determine_upgrade_actions new_functions
            registry_identifiers).2.1.selectors.toFinset)).map FunctionInfo.signature)
    ∧ ((determine_upgrade_actions new_functions registry_identifiers).2.1.selectors.length
      = (determine_upgrade_actions new_functions registry_identifiers).2.1.signatures.length) := by
  refine ⟨?_, ?_, ?_, ?_⟩
  · simp only [determine_upgrade_actions, Finset.sort_toFinset]
  · simp only [determine_upgrade_actions]
    rw [Finset.length_sort, List.length_map,
      length_filter_mem_eq_card new_functions _ h,
      Finset.inter_eq_right.mpr Finset.sdiff_subset]
  · simp only [determine_upgrade_actions, Finset.sort_toFinset]
  · simp only [determine_upgrade_actions]
    rw [Finset.length_sort, List.length_map,
      length_filter_mem_eq_card new_functions _ h,
      Finset.inter_eq_right.mpr Finset.inter_subset_left]

/-- C4 (counterexample): with two new records sharing selector 1 and an
empty registry, the Add action has one selector but two signatures, so
the claimed length equality fails as stated for arbitrary record
lists. -/
theorem determine_upgrade_actions_selector_signature_length_mismatch :
    ¬ ((determine_upgrade_actions
          [{ name := "f", signature := "f()", selector := 1 },
           { name := "g", signature := "g()", selector := 1 }] (∅ : Finset Nat)).1.selectors.length
        = (determine_upgrade_actions
          [{ name := "f", signature := "f()", selector := 1 },
           { name := "g", signature := "g()", selector := 1 }]
          (∅ : Finset Nat)).1.signatures.length) := by
  intro hcontra
  have h1 : (determine_upgrade_actions
      [{ name := "f", signature := "f()", selector := 1 },
       { name := "g", signature := "g()", selector := 1 }]
      (∅ : Finset Nat)).1.selectors.length = 1 := by
    simp only [determine_upgrade_actions]
    rw [Finset.length_sort]
    decide
  have h2 : (determine_upgrade_actions
      [{ name := "f", signature := "f()", selector := 1 },
       { name := "g", signature := "g()", selector := 1 }]
      (∅ : Finset Nat)).1.signatures.length = 2 := by decide
  rw [h1, h2] at hcontra
  exact absurd hcontra (by decide)

/-- C7: get_facet_functions yields one record per abi entry of type
"function" (any other entry type yields no record), whose signature is
the name followed by the parenthesized comma-join of the input type
strings, in the abi's declaration order; parameter names are discarded,
so stripping them from every entry leaves the output unchanged. -/
theorem get_facet_functions_characterization (deriveFn : String → Nat) (abi : List AbiItem) :
    (get_facet_functions deriveFn abi
      = (abi.filter (fun item => item.type = "function")).map
          (fun item => { name := item.name, signature := abiSignature item,
                         selector := deriveFn (abiSignature item) }))
    ∧ get_facet_functions deriveFn (abi.map stripParamNames)
        = get_facet_functions deriveFn abi := by
  have hmain : ∀ l : List AbiItem, get_facet_functions deriveFn l
      = (l.filter (fun item => item.type = "function")).map
          (fun item => { name := item.name, signature := abiSignature item,
                         selector := deriveFn (abiSignature item) }) := by
    intro l
    rw [get_facet_functions, foldl_facetStep]
    simp
  refine ⟨hmain abi, ?_⟩
  rw [hmain, hmain, List.filter_map, List.map_map]
  have hpred : (fun item => decide (item.type = "function")) ∘ stripParamNames
      = fun item => decide (item.type = "function") := by
    funext item
    simp [stripParamNames]
  rw [hpred]
  apply List.map_congr_left
  intro item _
  simp only [Function.comp_def]
  rw [abiSignature_stripParamNames]
  rfl

/-- C6: check_facet_source_conflicts reports exactly the selectors
claimed by more than one record across all modules, each mapped to all
of its claiming (module, signature) pairs, and both the set of reported
selectors and the set of pairs under each selector are invariant under
permuting the scanned modules. -/
theorem check_facet_source_conflicts_characterization (modules modulesPermuted : List FacetModule)
    (h : modules.Perm modulesPermuted) (sel : Nat) :
    (check_facet_source_conflicts modules sel
        = if 1 < (modules.flatMap FacetModule.records).countP (fun f => f.selector = sel)
          then some (claimsOf modules sel) else none)
    ∧ ((check_facet_source_conflicts modules sel).isSome
        ↔ (check_facet_source_conflicts modulesPermuted sel).isSome)
    ∧ ((scanDict modules sel).toFinset = (scanDict modulesPermuted sel).toFinset) := by
  have hperm : (claimsOf modules sel).Perm (claimsOf modulesPermuted sel) :=
    h.flatMap_right _
  refine ⟨?_, ?_, ?_⟩
  · simp only [check_facet_source_conflicts]
    rw [scanDict_eq_claimsOf, claimsOf_length]
  · simp only [check_facet_source_conflicts]
    rw [scanDict_eq_claimsOf, scanDict_eq_claimsOf, hperm.length_eq]
    by_cases hc : 1 < (claimsOf modulesPermuted sel).length
    · simp [hc]
    · simp [hc]
  · rw [scanDict_eq_claimsOf, scanDict_eq_claimsOf]
    exact List.toFinset_eq_of_perm _ _ hperm

/-- C8: when the facet's compiled artifact is absent, the
reconciliation pipeline fails with the artifact-not-found error raised
during loading, and its registry query trace is empty: no registry read
occurs in the failing run. -/
theorem run_pipeline_artifact_missing_no_registry_query (facet_name : String) (abi : List AbiItem) (deriveFn : String → Nat)
    (facetAddresses : List String) (registrySelectors : Finset Nat) :
    ((run_pipeline
        { facet_name := facet_name, artifactExists := false, abi := abi,
          deriveFn := deriveFn, facetAddresses := facetAddresses,
          registrySelectors := registrySelectors }).1
      = Except.error ("Compiled artifact not found: out/" ++ facet_name ++ ".sol/"
          ++ facet_name ++ ".json. Run 'forge build' first."))
    ∧ ((run_pipeline
        { facet_name := facet_name, artifactExists := false, abi := abi,
          deriveFn := deriveFn, facetAddresses := facetAddresses,
          registrySelectors := registrySelectors }).2 = []) :=
  ⟨rfl, rfl⟩

/-- C9: execute_upgrades emits the per-kind operations as a sublist of
the fixed order Replace, Add, Remove; a kind appears exactly when its
selectors list is non-empty, and when all three are empty nothing is
emitted. -/
theorem execute_upgrades_fixed_order (add_action replace_action remove_action : UpgradeAction) :
    (((execute_upgrades add_action replace_action remove_action).map Prod.fst).Sublist
        ["Replace", "Add", "Remove"])
    ∧ ("Replace" ∈ (execute_upgrades add_action replace_action remove_action).map Prod.fst
        ↔ replace_action.selectors ≠ [])
    ∧ ("Add" ∈ (execute_upgrades add_action replace_action remove_action).map Prod.fst
        ↔ add_action.selectors ≠ [])
    ∧ ("Remove" ∈ (execute_upgrades add_action replace_action remove_action).map Prod.fst
        ↔ remove_action.selectors ≠ [])
    ∧ (execute_upgrades add_action replace_action remove_action = []
        ↔ (replace_action.selectors = [] ∧ add_action.selectors = []
            ∧ remove_action.selectors = [])) := by
  by_cases hr : replace_action.selectors = [] <;>
    by_cases ha : add_action.selectors = [] <;>
      by_cases hrm : remove_action.selectors = [] <;>
        refine ⟨?_, ?_, ?_, ?_, ?_⟩ <;>
          simp [execute_upgrades, hr, ha, hrm]

/-- C10: constructing the upgrader with no private-key argument and no
PRIVATE_KEY in the environment fails with the "PRIVATE_KEY not set"
configuration error, and the conflict-scan mode, which constructs the
upgrader before scanning, fails the same way, so a conflict scan cannot
run without a credential. -/
theorem init_missing_private_key_fails (facet_name diamond_address network : String)
    (envSepolia envMainnet : Option String) (modules : List FacetModule) :
    (DiamondUpgrader.init facet_name diamond_address network none none envSepolia envMainnet
        = Except.error "PRIVATE_KEY not set. Set it in .env or pass it as argument")
    ∧ (run_check_conflicts network none none envSepolia envMainnet modules
        = Except.error "PRIVATE_KEY not set. Set it in .env or pass it as argument") := by
  refine ⟨?_, ?_⟩ <;> simp [DiamondUpgrader.init, run_check_conflicts, truthyOpt]

/-- Witness for C4: the alignment theorem applied to two records with
distinct selectors 1 and 2 against registry set 2, 3. -/
theorem determine_upgrade_actions_signature_alignment_witness :
    ((sampleRecords.map FunctionInfo.selector).Nodup)
    ∧ (((determine_upgrade_actions sampleRecords ({2, 3} : Finset Nat)).1.signatures
        = (sampleRecords.filter (fun f => f.selector ∈
            (determine_upgrade_actions sampleRecords
              ({2, 3} : Finset Nat)).1.selectors.toFinset)).map FunctionInfo.signature)
      ∧ ((determine_upgrade_actions sampleRecords ({2, 3} : Finset Nat)).1.selectors.length
        = (determine_upgrade_actions sampleRecords ({2, 3} : Finset Nat)).1.signatures.length)
      ∧ ((determine_upgrade_actions sampleRecords ({2, 3} : Finset Nat)).2.1.signatures
        = (sampleRecords.filter (fun f => f.selector ∈
            (determine_upgrade_actions sampleRecords
              ({2, 3} : Finset Nat)).2.1.selectors.toFinset)).map FunctionInfo.signature)
      ∧ ((determine_upgrade_actions sampleRecords ({2, 3} : Finset Nat)).2.1.selectors.length
        = (determine_upgrade_actions sampleRecords
            ({2, 3} : Finset Nat)).2.1.signatures.length)) :=
  ⟨by decide, determine_upgrade_actions_signature_alignment sampleRecords _ (by decide)⟩

/-- Witness for C6: the characterization applied to two one-record
modules that claim the same selector 5, in both scan orders. -/
theorem check_facet_source_conflicts_characterization_witness :
    ([sampleModuleA, sampleModuleB].Perm [sampleModuleB, sampleModuleA])
    ∧ ((check_facet_source_conflicts [sampleModuleA, sampleModuleB] 5
        = if 1 < ([sampleModuleA, sampleModuleB].flatMap FacetModule.records).countP
              (fun f => f.selector = 5)
          then some (claimsOf [sampleModuleA, sampleModuleB] 5) else none)
      ∧ ((check_facet_source_conflicts [sampleModuleA, sampleModuleB] 5).isSome
          ↔ (check_facet_source_conflicts [sampleModuleB, sampleModuleA] 5).isSome)
      ∧ ((scanDict [sampleModuleA, sampleModuleB] 5).toFinset
          = (scanDict [sampleModuleB, sampleModuleA] 5).toFinset)) :=
  ⟨List.Perm.swap _ _ _,
    check_facet_source_conflicts_characterization _ _ (List.Perm.swap _ _ _) 5⟩
